import Mathlib

/-!
Verification development for the plife particle-life simulator.

The Rust core (src/simulation.rs, src/main.rs) is shallowly embedded below.
Conventions of the embedding:

* `f32` values are modelled as `ℚ`.  Every property proved here is a
  structural or branch-level property (buffer shapes, indexing, command
  order, which random draw feeds which cell), never a rounding property,
  so the substitution of exact rationals for floats is faithful.
* The global `thread_rng()` is modelled as a pair of raw-draw streams
  (`Rng`) together with a draw counter threaded through the code in
  program order; every call site of `gen_range` / `sample` consumes one
  fresh counter position, exactly mirroring the sequence of calls in the
  Rust source.
* `rand`-crate primitives are modelled as follows:
  `gen_range(lo..=hi)` on integers is `lo + raw % (hi - lo + 1)`;
  `gen_range(lo..hi)` / `gen_range(lo..=hi)` on floats is
  `lo + u * (hi - lo)` for a unit draw `u`; `Normal::new(m, s).sample`
  is `m + s * u` where `u` stands for the standard normal variate
  produced from the raw draw (its distribution is irrelevant to every
  claim below, only freshness and the affine shape matter).
* Rust `Vec` indexing (which panics out of bounds) is modelled with
  `Option`: a returned `none` is a panic of the original code.
* GPU buffers are split into CPU-side handles (the `Simulation` record)
  and GPU-side contents (a `Store`, mapping buffer names to flat `ℚ`
  lists, two entries per particle for the vec2 buffers).  Command
  encoding and submission in `Simulation::step` is modelled as a list of
  commands plus an executable semantics; the compute shader itself
  (compute.wgsl, absent from src/) is an arbitrary function constrained
  by the WebGPU binding rules: a dispatch may write only buffers bound
  as writable (non-read-only) storage.
-/

namespace Plife

/-- The global thread rng, modelled as two streams of raw draws indexed
by a draw counter: `intDraws` feeds integer `gen_range` calls and
`unitDraws` feeds float `gen_range` / `Normal::sample` calls.  The
counter is advanced once per draw, in the order the Rust code draws. -/
structure Rng where
  intDraws : ℕ → ℕ
  unitDraws : ℕ → ℚ

/-- Model of `thread_rng().gen_range(lo..=hi)` on unsigned integers
(simulation.rs:43,276): the raw draw reduced into the inclusive range. -/
def genRangeInt (lo hi raw : ℕ) : ℕ := lo + raw % (hi - lo + 1)

/-- Model of `thread_rng().gen_range(lo..hi)` and `gen_range(lo..=hi)` on
floats (simulation.rs:52,86,202): an affine map of a unit draw `u` into
the range. -/
def genRangeQ (lo hi u : ℚ) : ℚ := lo + u * (hi - lo)

/-- Model of `Normal::new(mean, std_dev).unwrap().sample(rng)`
(simulation.rs:64,70,196): `u` is the abstract standard normal variate
obtained from the unit-draw stream. -/
def normalSample (mean std u : ℚ) : ℚ := mean + std * u

/-- Ruleset (simulation.rs:18-24); matrices as nested lists exactly like
the nested `Vec<Vec<f32>>` of the source. -/
structure Ruleset where
  num_point_types : ℕ
  min_r : List (List ℚ)
  max_r : List (List ℚ)
  attractions : List (List ℚ)
  friction : ℚ

/-- RulesetTemplate (simulation.rs:28-39). -/
structure RulesetTemplate where
  min_types : ℕ
  max_types : ℕ
  min_friction : ℚ
  max_friction : ℚ
  min_r_lower : ℚ
  min_r_upper : ℚ
  max_r_lower : ℚ
  max_r_upper : ℚ
  attractions_mean : ℚ
  attractions_std : ℚ

/-- Inner loop of `gen_2d_vec_uniform` / `gen_2d_vec_normal`
(simulation.rs:50-53, 68-71): push `c` cells, one fresh draw each,
starting at draw counter `k`; returns the row and the advanced counter.
`cell` maps a counter position to the sampled value. -/
def genCells (cell : ℕ → ℚ) : ℕ → ℕ → List ℚ × ℕ
  | k, 0 => ([], k)
  | k, c + 1 =>
    let v := cell k
    let rest := genCells cell (k + 1) c
    (v :: rest.1, rest.2)

/-- Outer loop of `gen_2d_vec_uniform` / `gen_2d_vec_normal`
(simulation.rs:49-55, 67-73): push `rows` rows of `n` cells each. -/
def genMatWith (cell : ℕ → ℚ) (n : ℕ) : ℕ → ℕ → List (List ℚ) × ℕ
  | k, 0 => ([], k)
  | k, r + 1 =>
    let row := genCells cell k n
    let rest := genMatWith cell n row.2 r
    (row.1 :: rest.1, rest.2)

/-- `gen_2d_vec_uniform` (simulation.rs:47-57). -/
def gen_2d_vec_uniform (rng : Rng) (n : ℕ) (lo hi : ℚ) (k : ℕ) :
    List (List ℚ) × ℕ :=
  genMatWith (fun j => genRangeQ lo hi (rng.unitDraws j)) n k n

/-- `gen_2d_vec_normal` (simulation.rs:59-75). -/
def gen_2d_vec_normal (rng : Rng) (n : ℕ) (mean std : ℚ) (k : ℕ) :
    List (List ℚ) × ℕ :=
  genMatWith (fun j => normalSample mean std (rng.unitDraws j)) n k n

/-- `RulesetTemplate::generate` (simulation.rs:42-88).  Draw order of the
source: `num_point_types` first (one integer draw, counter 0), then the
`min_r` matrix, then `max_r`, then `attractions`, then `friction`
(struct literal fields are evaluated in written order in Rust). -/
def RulesetTemplate.generate (t : RulesetTemplate) (rng : Rng) : Ruleset :=
  let n := genRangeInt t.min_types t.max_types (rng.intDraws 0)
  let minr := gen_2d_vec_uniform rng n t.min_r_lower t.min_r_upper 1
  let maxr := gen_2d_vec_uniform rng n t.max_r_lower t.max_r_upper minr.2
  let attr := gen_2d_vec_normal rng n t.attractions_mean t.attractions_std maxr.2
  { num_point_types := n
    min_r := minr.1
    max_r := maxr.1
    attractions := attr.1
    friction := genRangeQ t.min_friction t.max_friction (rng.unitDraws attr.2) }

/-- Walls (simulation.rs:165-169). -/
inductive Walls where
  | none : Walls
  | square : ℚ → Walls
  | wrapping : ℚ → Walls
deriving DecidableEq

/-- WallsCLI (main.rs:88-94). -/
inductive WallsCLI where
  | none : WallsCLI
  | square : WallsCLI
  | wrapping : WallsCLI
deriving DecidableEq

/-- `TryInto<Walls> for (WallsCLI, Option<f32>)` (main.rs:96-106).  The
match arms are translated one to one; note that a provided wall
distance is passed through without inspecting its value. -/
def tryIntoWalls : WallsCLI × Option ℚ → Except String Walls
  | (WallsCLI.none, _) => Except.ok Walls.none
  | (WallsCLI.square, some f) => Except.ok (Walls.square f)
  | (WallsCLI.wrapping, some f) => Except.ok (Walls.wrapping f)
  | _ => Except.error "Square and Wrapping walls require wall distance parameter."

/-- `Simulation::R_SMOOTH` (simulation.rs:191). -/
def R_SMOOTH : ℚ := 2

/-- Modelled from the spec: the pairwise force law of the compute shader.
The shader source compute.wgsl is referenced by
`include_str!("compute.wgsl")` (simulation.rs:600) but the file is not
part of src/, so the ForceKernel is reproduced from spec section 4.2:
early exit to the zero vector when `r2 > max_r * max_r` or `r2 < 0.01`,
otherwise the tent profile (outer band) or the R_SMOOTH-smoothed
repulsion (inner band) applied along the normalized displacement.  The
square root, irrational on ℚ, is abstracted as the parameter `sqrt`;
the early-exit branch does not use it. -/
def force (sqrt : ℚ → ℚ) (delta : ℚ × ℚ) (min_r max_r attraction : ℚ) :
    ℚ × ℚ :=
  let r2 := delta.1 * delta.1 + delta.2 * delta.2
  if r2 > max_r * max_r ∨ r2 < 1 / 100 then (0, 0)
  else
    let r := sqrt r2
    let dx := delta.1 / r
    let dy := delta.2 / r
    let f :=
      if r > min_r then
        attraction * (1 - 2 * |r - (max_r + min_r) / 2| / (max_r - min_r))
      else
        R_SMOOTH * min_r * (1 / (min_r + R_SMOOTH) - 1 / (r + R_SMOOTH))
    (dx * f, dy * f)

/-- `Simulation::generate_point_normal` (simulation.rs:194-198): two
normal(0, 5) samples.  Note: this function is never called by
`Simulation::new` in the source. -/
def generate_point_normal (u1 u2 : ℚ) : ℚ × ℚ :=
  (normalSample 0 5 u1, normalSample 0 5 u2)

/-- `Simulation::generate_point_uniform` (simulation.rs:200-203): two
uniform draws from `-dist..dist`. -/
def generate_point_uniform (dist u1 u2 : ℚ) : ℚ × ℚ :=
  (genRangeQ (-dist) dist u1, genRangeQ (-dist) dist u2)

/-- The fill loop of the `positions` buffer (simulation.rs:230-239):
for each of `np` points, `generate_point_uniform(500.0)` regardless of
the walls argument (the source comment on line 235 reads
`// TODO Walls`), written as interleaved x, y.  Point `i` consumes unit
draws `2*i` and `2*i+1`. -/
def positionsInit (rng : Rng) : ℕ → List ℚ
  | 0 => []
  | n + 1 =>
    positionsInit rng n ++
      [(generate_point_uniform 500 (rng.unitDraws (2 * n)) (rng.unitDraws (2 * n + 1))).1,
       (generate_point_uniform 500 (rng.unitDraws (2 * n)) (rng.unitDraws (2 * n + 1))).2]

/-- The fill loop of the `velocities` buffer (simulation.rs:255-263):
two `0.0f32` words per point, written sequentially. -/
def velocitiesInit : ℕ → List ℚ
  | 0 => []
  | n + 1 => velocitiesInit n ++ [0, 0]

/-- The `types_vec` loop (simulation.rs:274-277): `np` draws of
`gen_range(0..num_point_types)` (half-open, panics when the range is
empty, i.e. when `nt = 0` and at least one iteration runs).  The draws
start at counter `2 * np`: the positions buffer consumed the first
`2 * np` draws. -/
def typesVecGen (rng : Rng) (np nt : ℕ) : Option (List ℕ) :=
  if np = 0 then some []
  else if nt = 0 then none
  else some ((List.range np).map (fun i => rng.intDraws (2 * np + i) % nt))

/-- Nested-list matrix lookup, `Option`-valued (panicking `Vec` index). -/
def mget (m : List (List ℚ)) (i j : ℕ) : Option ℚ :=
  (m[i]?).bind (fun row => row[j]?)

/-- One cell of the cache fill loops (simulation.rs:306-311, 327-332,
348-353): `mat[types_vec[y]][types_vec[x]]`, each index panicking when
out of bounds. -/
def cacheLookup (mat : List (List ℚ)) (tv : List ℕ) (y x : ℕ) : Option ℚ := do
  let ty ← tv[y]?
  let tx ← tv[x]?
  let row ← mat[ty]?
  row[tx]?

/-- Sequence a list of fallible values; `none` anywhere is a panic of
the original fill loop. -/
def seqOpt : List (Option ℚ) → Option (List ℚ)
  | [] => some []
  | o :: os => do
    let v ← o
    let vs ← seqOpt os
    pure (v :: vs)

/-- A cache fill loop of `Simulation::new` (simulation.rs:295-356): for
`y` in `0..nt`, for `x` in `0..nt`, write
`mat[types_vec[y]][types_vec[x]]`, row major. -/
def cacheFill (mat : List (List ℚ)) (tv : List ℕ) (nt : ℕ) : Option (List ℚ) :=
  seqOpt ((List.range nt).flatMap (fun y => (List.range nt).map (fun x => cacheLookup mat tv y x)))

/-- The GPU-side buffers owned by a Simulation (simulation.rs:171-188). -/
inductive BufName where
  | positions : BufName
  | positionsOld : BufName
  | velocities : BufName
  | velocitiesOld : BufName
  | types : BufName
  | cacheMaxR : BufName
  | cacheMinR : BufName
  | cacheAttraction : BufName
  | globals : BufName
deriving DecidableEq

/-- GPU buffer contents: flat lists of words (vec2 buffers hold two
words per particle, interleaved). -/
def Store : Type := BufName → List ℚ

/-- One entry of a bind group layout: binding index, whether the binding
is a storage buffer (`false` means uniform, which is never writable in
WebGPU), and for storage buffers the `read_only` flag of
`BufferBindingType::Storage`. -/
structure LayoutEntry where
  binding : ℕ
  storage : Bool
  read_only : Bool
deriving DecidableEq

/-- The bind group layout of the step pipeline (simulation.rs:387-511):
binding 0 `positions` storage read-write, 1 `positions_old` storage
read-only, 2 `velocities` storage read-write, 3 `velocities_old`
storage read-only, 4-8 uniform (types, cache_max_r, cache_min_r,
cache_attraction, globals); uniforms are marked read-only here since
WebGPU uniform bindings cannot be written. -/
def stepBindGroupLayout : List LayoutEntry :=
  [⟨0, true, false⟩, ⟨1, true, true⟩, ⟨2, true, false⟩, ⟨3, true, true⟩,
   ⟨4, false, true⟩, ⟨5, false, true⟩, ⟨6, false, true⟩, ⟨7, false, true⟩,
   ⟨8, false, true⟩]

/-- The bind group of the step pipeline (simulation.rs:512-589): which
buffer each binding index is bound to. -/
def stepBindGroup : List (ℕ × BufName) :=
  [(0, BufName.positions), (1, BufName.positionsOld), (2, BufName.velocities),
   (3, BufName.velocitiesOld), (4, BufName.types), (5, BufName.cacheMaxR),
   (6, BufName.cacheMinR), (7, BufName.cacheAttraction), (8, BufName.globals)]

/-- Whether binding index `i` of `layout` is writable by a compute
invocation: it must be a storage binding with `read_only = false`. -/
def writableBinding (layout : List LayoutEntry) (i : ℕ) : Bool :=
  match layout.find? (fun e => e.binding == i) with
  | some e => e.storage && !e.read_only
  | Option.none => false

/-- Whether buffer `b` is writable through bind group `bg` under
`layout`. -/
def writableBuf (layout : List LayoutEntry) (bg : List (ℕ × BufName))
    (b : BufName) : Bool :=
  bg.any (fun p => decide (p.2 = b) && writableBinding layout p.1)

/-- GPU commands recorded by the step encoder: a buffer-to-buffer copy
of `size` words from offset 0 to offset 0, or a compute dispatch with
its bind group and layout. -/
inductive Cmd where
  | copyBufferToBuffer : BufName → BufName → ℕ → Cmd
  | dispatch : List LayoutEntry → List (ℕ × BufName) → ℕ → Cmd

/-- Executable semantics of one command.  A copy replaces the first
`size` words of the destination with the first `size` words of the
source.  A dispatch runs the (unknown) shader `shader`; per the WebGPU
binding rules it can only have written buffers bound as writable
storage, every other buffer keeps its prior contents. -/
def execCmd (shader : Store → Store) (σ : Store) : Cmd → Store
  | Cmd.copyBufferToBuffer src dst size =>
    fun b => if b = dst then (σ src).take size ++ (σ dst).drop size else σ b
  | Cmd.dispatch layout bg _ =>
    fun b => if writableBuf layout bg b then shader σ b else σ b

/-- Execute a command list in order. -/
def execCmds (shader : Store → Store) (σ : Store) : List Cmd → Store
  | [] => σ
  | c :: cs => execCmds shader (execCmd shader σ c) cs

/-- The CPU-side Simulation record (simulation.rs:171-188).  The buffer
handles, bind group and pipeline of the Rust struct are created once
and never reassigned; their contents live in the `Store`. -/
structure Simulation where
  num_points : ℕ
  ruleset : Ruleset
  walls : Walls

/-- The commands recorded by `Simulation::step` (simulation.rs:625-654),
in encoding order: copy `positions` to `positions_old` (full buffer,
`num_points * 2` words), copy `velocities` to `velocities_old`, then
one compute dispatch of `ceil(num_points / 256)` workgroups with the
step bind group. -/
def Simulation.stepCommands (s : Simulation) : List Cmd :=
  [Cmd.copyBufferToBuffer BufName.positions BufName.positionsOld (s.num_points * 2),
   Cmd.copyBufferToBuffer BufName.velocities BufName.velocitiesOld (s.num_points * 2),
   Cmd.dispatch stepBindGroupLayout stepBindGroup ((s.num_points + 255) / 256)]

/-- `Simulation::step` (simulation.rs:625-654): submit the recorded
commands.  The method assigns no field of `self` (it only encodes and
submits), so the CPU-side record is returned unchanged; the GPU store
is advanced by the command semantics. -/
def Simulation.step (shader : Store → Store) (s : Simulation) (σ : Store) :
    Simulation × Store :=
  (s, execCmds shader σ s.stepCommands)

/-- `Simulation::new` (simulation.rs:205-624), CPU-visible effects: fill
`positions` (uniform 500 draws, unit draws 0 to 2*np-1), zero-fill
`velocities`, leave `positions_old` and `velocities_old`
zero-initialized (wgpu zero-initializes fresh buffers), draw
`types_vec` (integer draws 2*np onward), fill the three type-pair cache
buffers through `types_vec`, and write `globals`.  A `none` is a panic
of the original constructor. -/
def Simulation.new (rng : Rng) (np : ℕ) (ruleset : Ruleset) (walls : Walls) :
    Option (Simulation × Store) := do
  let positions := positionsInit rng np
  let velocities := velocitiesInit np
  let types_vec ← typesVecGen rng np ruleset.num_point_types
  let cmaxr ← cacheFill ruleset.max_r types_vec ruleset.num_point_types
  let cminr ← cacheFill ruleset.min_r types_vec ruleset.num_point_types
  let cattr ← cacheFill ruleset.attractions types_vec ruleset.num_point_types
  pure (⟨np, ruleset, walls⟩,
    fun b =>
      match b with
      | BufName.positions => positions
      | BufName.positionsOld => List.replicate (2 * np) 0
      | BufName.velocities => velocities
      | BufName.velocitiesOld => List.replicate (2 * np) 0
      | BufName.types => types_vec.map (fun t => (t : ℚ))
      | BufName.cacheMaxR => cmaxr
      | BufName.cacheMinR => cminr
      | BufName.cacheAttraction => cattr
      | BufName.globals => [(np : ℚ), (ruleset.num_point_types : ℚ), ruleset.friction])

/-- The `steps` counter of `run_headless` (main.rs:154-162) after `n`
loop iterations: initialized to 0, incremented by one after each
`simulation.step` call. -/
def runHeadlessSteps : ℕ → ℕ
  | 0 => 0
  | n + 1 => runHeadlessSteps n + 1

/-! Concrete fixtures used by witnesses and counterexamples. -/

/-- A trivial random source: every raw draw is 0. -/
def rng0 : Rng := ⟨fun _ => 0, fun _ => 0⟩

/-- A one-type ruleset with 1x1 matrices. -/
def ruleset1 : Ruleset :=
  { num_point_types := 1, min_r := [[3]], max_r := [[7]],
    attractions := [[1]], friction := 1 / 20 }

/-- A one-particle simulation record. -/
def sim0 : Simulation := ⟨1, ruleset1, Walls.none⟩

/-- A store in which every buffer holds two words. -/
def store0 : Store := fun _ => [0, 0]

/-! Helper lemmas. -/

theorem velocitiesInit_eq (n : ℕ) : velocitiesInit n = List.replicate (2 * n) 0 := by
  induction n with
  | zero => rfl
  | succ n ih =>
    show velocitiesInit n ++ [0, 0] = _
    rw [ih, Nat.mul_succ, List.replicate_add]
    rfl

theorem typesVecGen_some (rng : Rng) (np nt : ℕ) (hnt : nt ≠ 0) :
    ∃ tv, typesVecGen rng np nt = some tv ∧ tv.length = np := by
  unfold typesVecGen
  by_cases hnp : np = 0
  · subst hnp; simp
  · simp [hnp, hnt]

theorem seqOpt_none {l : List (Option ℚ)} (h : Option.none ∈ l) :
    seqOpt l = Option.none := by
  induction l with
  | nil => cases h
  | cons o os ih =>
    rcases List.mem_cons.mp h with h1 | h2
    · subst h1; rfl
    · cases o <;> simp [seqOpt, ih h2]

theorem cacheFill_oob (mat : List (List ℚ)) (tv : List ℕ) (nt y : ℕ)
    (hy : y < nt) (hylen : tv.length ≤ y) :
    cacheFill mat tv nt = Option.none := by
  apply seqOpt_none
  apply List.mem_flatMap.mpr
  refine ⟨y, List.mem_range.mpr hy, ?_⟩
  apply List.mem_map.mpr
  refine ⟨y, List.mem_range.mpr hy, ?_⟩
  simp [cacheLookup, List.getElem?_eq_none hylen]

/-! Claim theorems. -/

/-- Claim C10: after Simulation.new returns, every entry of the
velocities buffer is initialized to 0, i.e. the buffer is 2*num_points
zero words. -/
theorem c10_velocities_zero (rng : Rng) (np : ℕ) (r : Ruleset) (w : Walls)
    (p : Simulation × Store) (h : Simulation.new rng np r w = some p) :
    p.2 BufName.velocities = List.replicate (2 * np) 0 := by
  simp only [Simulation.new, Option.pure_def, Option.bind_eq_bind,
    Option.bind_eq_some, Option.some.injEq] at h
  obtain ⟨tv, htv, cmaxr, h1, cminr, h2, cattr, h3, hp⟩ := h
  rw [← hp]
  exact velocitiesInit_eq np

/-- C10 witness: a concrete successful construction with one particle;
its velocities buffer is [0, 0]. -/
theorem c10_witness :
    ∃ p, Simulation.new rng0 1 ruleset1 Walls.none = some p ∧
      p.2 BufName.velocities = List.replicate (2 * 1) 0 := by
  have h : (Simulation.new rng0 1 ruleset1 Walls.none).isSome = true := by decide
  obtain ⟨p, hp⟩ := Option.isSome_iff_exists.mp h
  exact ⟨p, hp, c10_velocities_zero rng0 1 ruleset1 Walls.none p hp⟩

/-- Claim C7: the pairwise force returns the zero vector whenever
r2 = |delta|^2 satisfies r2 > max_r^2 or r2 < 0.01, for every square
root function, displacement and parameter triple. -/
theorem c7_force_zero (sqrt : ℚ → ℚ) (delta : ℚ × ℚ)
    (min_r max_r attraction : ℚ)
    (h : delta.1 * delta.1 + delta.2 * delta.2 > max_r * max_r ∨
         delta.1 * delta.1 + delta.2 * delta.2 < 1 / 100) :
    force sqrt delta min_r max_r attraction = (0, 0) := by
  simp only [force]
  rw [if_pos h]

/-- C7 witness: delta = (1, 0) with max_r = 1/2 lies outside the
interaction radius, so the force is zero. -/
theorem c7_witness :
    (((1 : ℚ), (0 : ℚ)).1 * (1, 0).1 + ((1 : ℚ), (0 : ℚ)).2 * (1, 0).2 >
        (1 / 2 : ℚ) * (1 / 2) ∨
      ((1 : ℚ), (0 : ℚ)).1 * (1, 0).1 + ((1 : ℚ), (0 : ℚ)).2 * (1, 0).2 <
        1 / 100) ∧
    force id (1, 0) 0 (1 / 2) 1 = (0, 0) :=
  ⟨Or.inl (by norm_num), c7_force_zero id (1, 0) 0 (1 / 2) 1 (Or.inl (by norm_num))⟩

/-- Claim C9: whenever num_points < ruleset.num_point_types, the cache
fill loops of Simulation.new index types_vec out of bounds, the
constructor panics, and no Simulation value is produced. -/
theorem c9_new_oob (rng : Rng) (np : ℕ) (r : Ruleset) (w : Walls)
    (h : np < r.num_point_types) :
    Simulation.new rng np r w = Option.none := by
  obtain ⟨tv, htv, hlen⟩ :=
    typesVecGen_some rng np r.num_point_types (by omega)
  have hcf : cacheFill r.max_r tv r.num_point_types = Option.none :=
    cacheFill_oob r.max_r tv r.num_point_types np h (le_of_eq hlen)
  simp only [Simulation.new, Option.pure_def, Option.bind_eq_bind, htv,
    Option.some_bind, hcf, Option.none_bind]

/-- C9 witness: zero particles with one point type makes the
constructor panic. -/
theorem c9_witness :
    0 < ruleset1.num_point_types ∧
    Simulation.new rng0 0 ruleset1 Walls.none = Option.none :=
  ⟨by decide, c9_new_oob rng0 0 ruleset1 Walls.none (by decide)⟩

/-- Claim C4 counterexample: requesting Square walls with the
non-positive extent -1 does not fail; it yields Walls.square (-1) and a
Simulation is then constructed with that extent. -/
theorem c4_counterexample :
    tryIntoWalls (WallsCLI.square, some (-1)) =
      Except.ok (Walls.square (-1)) ∧
    ¬ (0 : ℚ) < -1 ∧
    ∃ p, Simulation.new rng0 1 ruleset1 (Walls.square (-1)) = some p := by
  refine ⟨rfl, by norm_num, ?_⟩
  have h : (Simulation.new rng0 1 ruleset1 (Walls.square (-1))).isSome = true := by
    decide
  exact Option.isSome_iff_exists.mp h

/-- Claim C4 (amended): conversion of a boundary request fails exactly
when Square or Wrapping walls are requested with no wall distance at
all; a provided extent is accepted without any positivity check. -/
theorem c4_amended (w : WallsCLI) (d : Option ℚ) :
    (∃ e, tryIntoWalls (w, d) = Except.error e) ↔
      (w ≠ WallsCLI.none ∧ d = Option.none) := by
  cases w <;> cases d <;> simp [tryIntoWalls]

/-- Claim C5 counterexample: Simulation.step returns the Simulation
record unchanged, so no accessor of the Simulation can advance by one
across a step; the Simulation owns no tick counter. -/
theorem c5_counterexample :
    ¬ ∃ tick : Simulation → ℕ,
        tick (Simulation.step id sim0 store0).1 = tick sim0 + 1 := by
  rintro ⟨tick, h⟩
  have h2 : tick sim0 = tick sim0 + 1 := h
  omega

/-- Claim C5 (amended): the Simulation record is unchanged by step (it
owns no tick counter); the step count is kept by the caller: the
headless loop counter starts at 0, increases by exactly one per step
call, and never decreases. -/
theorem c5_amended :
    (∀ (shader : Store → Store) (s : Simulation) (σ : Store),
        (Simulation.step shader s σ).1 = s) ∧
    runHeadlessSteps 0 = 0 ∧
    (∀ n, runHeadlessSteps (n + 1) = runHeadlessSteps n + 1) ∧
    (∀ n, runHeadlessSteps n ≤ runHeadlessSteps (n + 1)) :=
  ⟨fun _ _ _ => rfl, rfl, fun _ => rfl,
   fun n => Nat.le_succ (runHeadlessSteps n)⟩

/-- Claim C8: a step leaves the population size, ruleset, walls policy
and the particle types unchanged; of the GPU buffers only the position
and velocity state (current and previous generations) can change, the
types, cache and globals buffers are preserved for every shader. -/
theorem c8_step_frame (shader : Store → Store) (s : Simulation) (σ : Store) :
    (Simulation.step shader s σ).1 = s ∧
    (Simulation.step shader s σ).2 BufName.types = σ BufName.types ∧
    (Simulation.step shader s σ).2 BufName.cacheMaxR = σ BufName.cacheMaxR ∧
    (Simulation.step shader s σ).2 BufName.cacheMinR = σ BufName.cacheMinR ∧
    (Simulation.step shader s σ).2 BufName.cacheAttraction =
      σ BufName.cacheAttraction ∧
    (Simulation.step shader s σ).2 BufName.globals = σ BufName.globals := by
  refine ⟨rfl, ?_, ?_, ?_, ?_, ?_⟩ <;> rfl

/-- Claim C3: in every step the commands are, in order, a full copy of
positions into positions_old, a full copy of velocities into
velocities_old, and only then the compute dispatch; bindings 1 and 3 of
the layout are read-only storage bound to the previous-generation
buffers, so for every shader the dispatch leaves them untouched: after
the step the previous-generation buffers hold exactly the pre-step
current values, the frozen snapshot the Evaluate phase reads. -/
theorem c3_step_snapshot (s : Simulation) (shader : Store → Store) (σ : Store)
    (hp : (σ BufName.positions).length = s.num_points * 2)
    (hpo : (σ BufName.positionsOld).length = s.num_points * 2)
    (hv : (σ BufName.velocities).length = s.num_points * 2)
    (hvo : (σ BufName.velocitiesOld).length = s.num_points * 2) :
    (s.stepCommands =
      [Cmd.copyBufferToBuffer BufName.positions BufName.positionsOld
          (s.num_points * 2),
        Cmd.copyBufferToBuffer BufName.velocities BufName.velocitiesOld
          (s.num_points * 2),
        Cmd.dispatch stepBindGroupLayout stepBindGroup
          ((s.num_points + 255) / 256)]) ∧
    stepBindGroupLayout[1]? = some ⟨1, true, true⟩ ∧
    stepBindGroup[1]? = some (1, BufName.positionsOld) ∧
    stepBindGroupLayout[3]? = some ⟨3, true, true⟩ ∧
    stepBindGroup[3]? = some (3, BufName.velocitiesOld) ∧
    writableBuf stepBindGroupLayout stepBindGroup BufName.positionsOld = false ∧
    writableBuf stepBindGroupLayout stepBindGroup BufName.velocitiesOld = false ∧
    (Simulation.step shader s σ).2 BufName.positionsOld = σ BufName.positions ∧
    (Simulation.step shader s σ).2 BufName.velocitiesOld = σ BufName.velocities := by
  refine ⟨rfl, rfl, rfl, rfl, rfl, rfl, rfl, ?_, ?_⟩
  · have hkey : (Simulation.step shader s σ).2 BufName.positionsOld =
        (σ BufName.positions).take (s.num_points * 2) ++
          (σ BufName.positionsOld).drop (s.num_points * 2) := rfl
    rw [hkey, List.take_of_length_le (le_of_eq hp),
      List.drop_eq_nil_of_le (le_of_eq hpo), List.append_nil]
  · have hkey : (Simulation.step shader s σ).2 BufName.velocitiesOld =
        (σ BufName.velocities).take (s.num_points * 2) ++
          (σ BufName.velocitiesOld).drop (s.num_points * 2) := rfl
    rw [hkey, List.take_of_length_le (le_of_eq hv),
      List.drop_eq_nil_of_le (le_of_eq hvo), List.append_nil]

/-- C3 witness: a concrete one-particle step in which every buffer holds
two words; the snapshot equalities evaluate as stated. -/
theorem c3_witness :
    (store0 BufName.positions).length = sim0.num_points * 2 ∧
    (Simulation.step id sim0 store0).2 BufName.positionsOld =
      store0 BufName.positions ∧
    (Simulation.step id sim0 store0).2 BufName.velocitiesOld =
      store0 BufName.velocities :=
  ⟨rfl,
   (c3_step_snapshot sim0 id store0 rfl rfl rfl rfl).2.2.2.2.2.2.2.1,
   (c3_step_snapshot sim0 id store0 rfl rfl rfl rfl).2.2.2.2.2.2.2.2⟩

/-- Claim C2: the initial particle positions produced by Simulation.new
are the same list for every boundary policy: the constructor samples
generate_point_uniform(500.0) regardless of walls (simulation.rs:235,
marked "// TODO Walls"), so the initial-position distribution does not
depend on the boundary, contradicting the claimed normal/uniform split. -/
theorem c2_positions_ignore_walls (rng : Rng) (np : ℕ) (r : Ruleset)
    (w w2 : Walls) :
    (Simulation.new rng np r w).map (fun p => p.2 BufName.positions) =
      (Simulation.new rng np r w2).map (fun p => p.2 BufName.positions) := by
  cases htv : typesVecGen rng np r.num_point_types with
  | none =>
    simp [Simulation.new, htv]
  | some tv =>
    cases h1 : cacheFill r.max_r tv r.num_point_types with
    | none => simp [Simulation.new, htv, h1]
    | some a =>
      cases h2 : cacheFill r.min_r tv r.num_point_types with
      | none => simp [Simulation.new, htv, h1, h2]
      | some b =>
        cases h3 : cacheFill r.attractions tv r.num_point_types with
        | none => simp [Simulation.new, htv, h1, h2, h3]
        | some c => simp [Simulation.new, htv, h1, h2, h3]

/-- The two-type ruleset of the C1 evidence: min_r = [[0,1],[2,3]],
max_r = [[10,11],[12,13]], attractions = [[5,6],[7,8]]. -/
def rulesetC1 : Ruleset :=
  { num_point_types := 2, min_r := [[0, 1], [2, 3]],
    max_r := [[10, 11], [12, 13]], attractions := [[5, 6], [7, 8]],
    friction := 0 }

/-- A random source whose integer draws produce the particle types
[1, 0] for two particles (the type draws sit at counters 4 and 5). -/
def rngC1 : Rng := ⟨fun k => if k = 4 then 1 else 0, fun _ => 0⟩

/-- Claim C1: at a concrete construction with two particles of types
[1, 0], the cache_min_r cell (0,0) holds ruleset.min_r[1][1] = 3, not
ruleset.min_r[0][0] = 0: the cache fill gathers through the particle
type vector (simulation.rs:308,329,350) instead of being a direct
per-ordered-pair-of-types projection of the Ruleset. -/
theorem c1_cache_gather :
    (Simulation.new rngC1 2 rulesetC1 Walls.none).map
        (fun p => p.2 BufName.types) = some [1, 0] ∧
    (Simulation.new rngC1 2 rulesetC1 Walls.none).map
        (fun p => (p.2 BufName.cacheMinR)[0]?) = some (some 3) ∧
    mget rulesetC1.min_r 0 0 = some 0 ∧
    ((3 : ℚ)) ≠ 0 := by
  refine ⟨?_, ?_, rfl, by norm_num⟩ <;> rfl

/-! Closed forms of the generation loops. -/

theorem genCells_eq (cell : ℕ → ℚ) : ∀ (c k : ℕ),
    genCells cell k c = ((List.range c).map (fun j => cell (k + j)), k + c)
  | 0, _ => by simp [genCells]
  | c + 1, k => by
    have ih := genCells_eq cell c (k + 1)
    simp only [genCells, ih, List.range_succ_eq_map, List.map_cons,
      List.map_map, Prod.mk.injEq, List.cons.injEq]
    refine ⟨⟨congrArg cell (by omega), ?_⟩, by omega⟩
    refine List.map_congr_left (fun a _ => ?_)
    exact congrArg cell (by omega)

theorem genMatWith_eq (cell : ℕ → ℚ) (n : ℕ) : ∀ (r k : ℕ),
    genMatWith cell n k r =
      ((List.range r).map
          (fun i => (List.range n).map (fun j => cell (k + i * n + j))),
        k + r * n)
  | 0, _ => by simp [genMatWith]
  | r + 1, k => by
    have ih := genMatWith_eq cell n r (k + n)
    simp only [genMatWith, genCells_eq, ih, List.range_succ_eq_map,
      List.map_cons, List.map_map, Prod.mk.injEq, List.cons.injEq]
    refine ⟨⟨?_, ?_⟩, by ring⟩
    · refine List.map_congr_left (fun a _ => ?_)
      exact congrArg cell (by ring)
    · refine List.map_congr_left (fun i _ => ?_)
      refine List.map_congr_left (fun j _ => ?_)
      exact congrArg cell (by rw [Nat.succ_mul]; ring)

theorem generate_num_types (t : RulesetTemplate) (rng : Rng) :
    (t.generate rng).num_point_types =
      genRangeInt t.min_types t.max_types (rng.intDraws 0) := rfl

theorem generate_min_r (t : RulesetTemplate) (rng : Rng) :
    (t.generate rng).min_r =
      (List.range (t.generate rng).num_point_types).map (fun i =>
        (List.range (t.generate rng).num_point_types).map (fun j =>
          genRangeQ t.min_r_lower t.min_r_upper
            (rng.unitDraws (1 + (i * (t.generate rng).num_point_types + j))))) := by
  simp only [RulesetTemplate.generate, gen_2d_vec_uniform, genMatWith_eq]
  refine List.map_congr_left (fun i _ => ?_)
  refine List.map_congr_left (fun j _ => ?_)
  exact congrArg (fun x => genRangeQ t.min_r_lower t.min_r_upper
    (rng.unitDraws x)) (by ring)

theorem generate_max_r (t : RulesetTemplate) (rng : Rng) :
    (t.generate rng).max_r =
      (List.range (t.generate rng).num_point_types).map (fun i =>
        (List.range (t.generate rng).num_point_types).map (fun j =>
          genRangeQ t.max_r_lower t.max_r_upper
            (rng.unitDraws
              (1 + (t.generate rng).num_point_types * (t.generate rng).num_point_types +
                (i * (t.generate rng).num_point_types + j))))) := by
  simp only [RulesetTemplate.generate, gen_2d_vec_uniform, genMatWith_eq]
  refine List.map_congr_left (fun i _ => ?_)
  refine List.map_congr_left (fun j _ => ?_)
  exact congrArg (fun x => genRangeQ t.max_r_lower t.max_r_upper
    (rng.unitDraws x)) (by ring)

theorem generate_attractions (t : RulesetTemplate) (rng : Rng) :
    (t.generate rng).attractions =
      (List.range (t.generate rng).num_point_types).map (fun i =>
        (List.range (t.generate rng).num_point_types).map (fun j =>
          normalSample t.attractions_mean t.attractions_std
            (rng.unitDraws
              (1 + 2 * ((t.generate rng).num_point_types * (t.generate rng).num_point_types) +
                (i * (t.generate rng).num_point_types + j))))) := by
  simp only [RulesetTemplate.generate, gen_2d_vec_uniform, gen_2d_vec_normal,
    genMatWith_eq]
  refine List.map_congr_left (fun i _ => ?_)
  refine List.map_congr_left (fun j _ => ?_)
  exact congrArg (fun x => normalSample t.attractions_mean t.attractions_std
    (rng.unitDraws x)) (by ring)

theorem generate_friction (t : RulesetTemplate) (rng : Rng) :
    (t.generate rng).friction =
      genRangeQ t.min_friction t.max_friction
        (rng.unitDraws
          (1 + 3 * ((t.generate rng).num_point_types *
            (t.generate rng).num_point_types))) := by
  simp only [RulesetTemplate.generate, gen_2d_vec_uniform, gen_2d_vec_normal,
    genMatWith_eq]
  exact congrArg (fun x => genRangeQ t.min_friction t.max_friction
    (rng.unitDraws x)) (by ring)

theorem genRangeInt_bounds (lo hi raw : ℕ) (h : lo ≤ hi) :
    lo ≤ genRangeInt lo hi raw ∧ genRangeInt lo hi raw ≤ hi := by
  unfold genRangeInt
  have := Nat.mod_lt raw (show 0 < hi - lo + 1 by omega)
  omega

theorem genRangeQ_bounds (lo hi u : ℚ) (h : lo ≤ hi) (h0 : 0 ≤ u)
    (h1 : u ≤ 1) : lo ≤ genRangeQ lo hi u ∧ genRangeQ lo hi u ≤ hi := by
  unfold genRangeQ
  constructor
  · nlinarith
  · nlinarith

theorem mget_map_range (f : ℕ → ℕ → ℚ) (n i j : ℕ) (hi : i < n) (hj : j < n) :
    mget ((List.range n).map (fun a => (List.range n).map (fun b => f a b)))
      i j = some (f i j) := by
  unfold mget
  rw [List.getElem?_map, List.getElem?_range hi]
  simp [List.getElem?_map, List.getElem?_range hj]

theorem cellIndex_inj (n i j i2 j2 : ℕ) (hj : j < n) (hj2 : j2 < n)
    (h : i * n + j = i2 * n + j2) : i = i2 ∧ j = j2 := by
  have hn : 0 < n := lt_of_le_of_lt (Nat.zero_le j) hj
  have e1 : (i * n + j) / n = i := by
    rw [Nat.mul_comm i n, Nat.mul_add_div hn, Nat.div_eq_of_lt hj, Nat.add_zero]
  have e2 : (i2 * n + j2) / n = i2 := by
    rw [Nat.mul_comm i2 n, Nat.mul_add_div hn, Nat.div_eq_of_lt hj2, Nat.add_zero]
  have hi : i = i2 := by rw [← e1, ← e2, h]
  subst hi
  omega

/-- Claim C6: RulesetTemplate.generate returns a Ruleset whose
num_point_types lies in [min_types, max_types]; whose min_r, max_r and
attractions are rectangular n-by-n matrices; whose min_r and max_r
cells lie in their declared ranges; in which the cell (i, j) of min_r,
max_r and attractions consumes the fresh draw at counter position
1 + (i*n + j), 1 + n*n + (i*n + j), 1 + 2*(n*n) + (i*n + j)
respectively (the cell-to-counter map is injective, so every cell is an
independent draw and the matrices are asymmetric in general); and whose
friction is the single draw at position 1 + 3*(n*n), made once per
Ruleset, not once per pair. -/
theorem c6_generate (t : RulesetTemplate) (rng : Rng) (R : Ruleset) (n : ℕ)
    (hR : R = t.generate rng) (hn : n = R.num_point_types)
    (htypes : t.min_types ≤ t.max_types)
    (hminr : t.min_r_lower ≤ t.min_r_upper)
    (hmaxr : t.max_r_lower ≤ t.max_r_upper)
    (hu : ∀ k, 0 ≤ rng.unitDraws k ∧ rng.unitDraws k ≤ 1) :
    (t.min_types ≤ n ∧ n ≤ t.max_types) ∧
    (R.min_r.length = n ∧ R.max_r.length = n ∧ R.attractions.length = n) ∧
    ((∀ row ∈ R.min_r, row.length = n) ∧ (∀ row ∈ R.max_r, row.length = n) ∧
      (∀ row ∈ R.attractions, row.length = n)) ∧
    (∀ i j, i < n → j < n →
      mget R.min_r i j =
        some (genRangeQ t.min_r_lower t.min_r_upper
          (rng.unitDraws (1 + (i * n + j)))) ∧
      mget R.max_r i j =
        some (genRangeQ t.max_r_lower t.max_r_upper
          (rng.unitDraws (1 + n * n + (i * n + j)))) ∧
      mget R.attractions i j =
        some (normalSample t.attractions_mean t.attractions_std
          (rng.unitDraws (1 + 2 * (n * n) + (i * n + j))))) ∧
    (∀ i j v, i < n → j < n → mget R.min_r i j = some v →
      t.min_r_lower ≤ v ∧ v ≤ t.min_r_upper) ∧
    (∀ i j v, i < n → j < n → mget R.max_r i j = some v →
      t.max_r_lower ≤ v ∧ v ≤ t.max_r_upper) ∧
    (∀ i j, i < n → j < n → i * n + j < n * n) ∧
    (∀ i j i2 j2, i < n → j < n → i2 < n → j2 < n →
      i * n + j = i2 * n + j2 → i = i2 ∧ j = j2) ∧
    R.friction = genRangeQ t.min_friction t.max_friction
      (rng.unitDraws (1 + 3 * (n * n))) := by
  subst hR
  subst hn
  refine ⟨?_, ⟨?_, ?_, ?_⟩, ⟨?_, ?_, ?_⟩, ?_, ?_, ?_, ?_, ?_, ?_⟩
  · rw [generate_num_types]
    exact genRangeInt_bounds t.min_types t.max_types (rng.intDraws 0) htypes
  · rw [generate_min_r]; simp
  · rw [generate_max_r]; simp
  · rw [generate_attractions]; simp
  · rw [generate_min_r]
    intro row hrow
    obtain ⟨i, _, rfl⟩ := List.mem_map.mp hrow
    simp
  · rw [generate_max_r]
    intro row hrow
    obtain ⟨i, _, rfl⟩ := List.mem_map.mp hrow
    simp
  · rw [generate_attractions]
    intro row hrow
    obtain ⟨i, _, rfl⟩ := List.mem_map.mp hrow
    simp
  · intro i j hi hj
    refine ⟨?_, ?_, ?_⟩
    · rw [generate_min_r, mget_map_range _ _ _ _ hi hj]
    · rw [generate_max_r, mget_map_range _ _ _ _ hi hj]
    · rw [generate_attractions, mget_map_range _ _ _ _ hi hj]
  · intro i j v hi hj hv
    rw [generate_min_r, mget_map_range _ _ _ _ hi hj, Option.some.injEq] at hv
    rw [← hv]
    exact genRangeQ_bounds _ _ _ hminr (hu _).1 (hu _).2
  · intro i j v hi hj hv
    rw [generate_max_r, mget_map_range _ _ _ _ hi hj, Option.some.injEq] at hv
    rw [← hv]
    exact genRangeQ_bounds _ _ _ hmaxr (hu _).1 (hu _).2
  · intro i j hi hj
    have h1 : i * (t.generate rng).num_point_types + j <
        (i + 1) * (t.generate rng).num_point_types := by
      rw [Nat.succ_mul]
      omega
    have h2 : (i + 1) * (t.generate rng).num_point_types ≤
        (t.generate rng).num_point_types * (t.generate rng).num_point_types :=
      Nat.mul_le_mul_right _ hi
    exact lt_of_lt_of_le h1 h2
  · intro i j i2 j2 _ hj _ hj2 h
    exact cellIndex_inj _ i j i2 j2 hj hj2 h
  · exact generate_friction t rng

/-- A degenerate template drawing every parameter from width-one or
unit ranges, for the C6 witness. -/
def t0 : RulesetTemplate := ⟨1, 1, 0, 1, 0, 1, 0, 1, 0, 1⟩

/-- A random source whose unit draws are all 1/2. -/
def rngU : Rng := ⟨fun _ => 0, fun _ => 1 / 2⟩

/-- C6 witness: the hypotheses hold for the concrete template t0 and
random source rngU, and the theorem applies there. -/
theorem c6_witness :
    ((1 : ℕ) = (t0.generate rngU).num_point_types ∧
      t0.min_types ≤ t0.max_types ∧
      t0.min_r_lower ≤ t0.min_r_upper ∧
      t0.max_r_lower ≤ t0.max_r_upper ∧
      (∀ k, 0 ≤ rngU.unitDraws k ∧ rngU.unitDraws k ≤ 1)) ∧
    ((t0.min_types ≤ 1 ∧ 1 ≤ t0.max_types) ∧
      ((t0.generate rngU).min_r.length = 1 ∧
        (t0.generate rngU).max_r.length = 1 ∧
        (t0.generate rngU).attractions.length = 1) ∧
      ((∀ row ∈ (t0.generate rngU).min_r, row.length = 1) ∧
        (∀ row ∈ (t0.generate rngU).max_r, row.length = 1) ∧
        (∀ row ∈ (t0.generate rngU).attractions, row.length = 1)) ∧
      (∀ i j, i < 1 → j < 1 →
        mget (t0.generate rngU).min_r i j =
          some (genRangeQ t0.min_r_lower t0.min_r_upper
            (rngU.unitDraws (1 + (i * 1 + j)))) ∧
        mget (t0.generate rngU).max_r i j =
          some (genRangeQ t0.max_r_lower t0.max_r_upper
            (rngU.unitDraws (1 + 1 * 1 + (i * 1 + j)))) ∧
        mget (t0.generate rngU).attractions i j =
          some (normalSample t0.attractions_mean t0.attractions_std
            (rngU.unitDraws (1 + 2 * (1 * 1) + (i * 1 + j))))) ∧
      (∀ i j v, i < 1 → j < 1 → mget (t0.generate rngU).min_r i j = some v →
        t0.min_r_lower ≤ v ∧ v ≤ t0.min_r_upper) ∧
      (∀ i j v, i < 1 → j < 1 → mget (t0.generate rngU).max_r i j = some v →
        t0.max_r_lower ≤ v ∧ v ≤ t0.max_r_upper) ∧
      (∀ i j, i < 1 → j < 1 → i * 1 + j < 1 * 1) ∧
      (∀ i j i2 j2, i < 1 → j < 1 → i2 < 1 → j2 < 1 →
        i * 1 + j = i2 * 1 + j2 → i = i2 ∧ j = j2) ∧
      (t0.generate rngU).friction = genRangeQ t0.min_friction t0.max_friction
        (rngU.unitDraws (1 + 3 * (1 * 1)))) :=
  ⟨⟨by decide, by decide, by decide, by decide, fun k => by norm_num [rngU]⟩,
   c6_generate t0 rngU (t0.generate rngU) 1 rfl (by decide) (by decide)
     (by decide) (by decide) (fun k => by norm_num [rngU])⟩

end Plife
